import Mathlib

/-
Shallow embedding of src/native/seek_wrapper.cpp.

The wrapper is a thin C-linkage shim over the external LibSeek driver
library.  The driver itself is third-party code outside this repository,
so its behaviour is modelled as an environment (the Driver structure
below): whether the camera constructor throws, whether the device open
succeeds, and what each camera read returns.  Everything the wrapper
itself does (argument checks, error codes, buffer copies, the handle
struct and its lifetime) is translated from the source.

Machine integers: widths, heights and capacities are C ints; realistic
thermal-camera geometries (at most a few hundred pixels per side) are
far from overflow, so they are modelled as Nat / Int without wrap-around.
-/

/-- Camera variant selected by seek_open: the source keeps a
LibSeek::SeekThermal (compact) or LibSeek::SeekThermalPro object. -/
inductive CameraVariant
  | compact
  | pro
deriving DecidableEq

/-- A raw frame produced by a driver read: a cv::Mat with a given number
of rows and columns of 16-bit samples, stored row-major.  pix r c is the
sample at row r, column c. -/
structure RawFrame where
  rows : Nat
  cols : Nat
  pix : Nat → Nat → Nat

/-- The contiguous row-major memory of a frame, as memcpy sees it:
linear index i holds the sample at row i / cols, column i % cols. -/
def RawFrame.flatten (f : RawFrame) : List Nat :=
  (List.range (f.rows * f.cols)).map (fun i => f.pix (i / f.cols) (i % f.cols))

/-- The SeekHandle struct of the source: which camera object was
constructed, the cv::Mat frame member, and the width / height fields
established from the warm-up read (int in the source). -/
structure SeekHandle where
  variant : CameraVariant
  frame : RawFrame
  width : Int
  height : Int

/-- Behaviour of the external LibSeek driver for one seek_open call:
whether the constructor throws for the given variant and ffc string,
whether camera->open() succeeds, and the result of the warm-up
camera->read (none = read returned false). -/
structure Driver where
  ctorThrows : CameraVariant → String → Bool
  openOk : Bool
  warmup : Option RawFrame

/-- Observable outcome of one seek_open call: the returned pointer, the
variant the switch on camera_type constructed, and a resource ledger
(whether the heap-allocated handle was deleted before returning, whether
the device was opened, whether it was closed before returning). -/
structure OpenOutcome where
  result : Option SeekHandle
  variantChosen : CameraVariant
  handleFreed : Bool
  deviceOpened : Bool
  deviceClosed : Bool

/-- ffc_path ? std::string(ffc_path) : std::string() -/
def ffcString (ffc_path : Option String) : String :=
  ffc_path.getD ""

/-- camera_type == SEEK_CAMERA_PRO (= 1) selects the Pro class, every
other value falls into the else branch and selects the compact class. -/
def chosenVariant (camera_type : Int) : CameraVariant :=
  if camera_type = 1 then CameraVariant.pro else CameraVariant.compact

/-- seek_open, src/native/seek_wrapper.cpp lines 31-62.  A fresh handle
is new-ed; if the camera constructor throws, the handle is deleted and
null returned; if camera->open() fails, the handle is deleted and null
returned; if the warm-up read fails, camera->close() is called, the
handle deleted, and null returned; otherwise width / height are set from
the warm-up frame and the handle returned.  (After a successful
construction handle->camera is the non-null raw pointer out of the
unique_ptr, so the !handle->camera arm of line 48 never fires.) -/
def seek_open (camera_type : Int) (ffc_path : Option String) (env : Driver) : OpenOutcome :=
  if env.ctorThrows (chosenVariant camera_type) (ffcString ffc_path) then
    ⟨none, chosenVariant camera_type, true, false, false⟩
  else if env.openOk then
    match env.warmup with
    | none => ⟨none, chosenVariant camera_type, true, true, true⟩
    | some fr =>
        ⟨some ⟨chosenVariant camera_type, fr, (fr.cols : Int), (fr.rows : Int)⟩,
         chosenVariant camera_type, false, true, false⟩
  else
    ⟨none, chosenVariant camera_type, true, false, false⟩

/-- Observable outcome of one seek_read_frame call: the int return
value, the final contents of the caller's out_buffer (none models a null
pointer), the handle after the call (camera->read writes into
handle->frame), and whether the call reached the camera->read transport
transaction. -/
structure ReadFrameResult where
  ret : Int
  buffer : Option (List Nat)
  handle : Option SeekHandle
  ioAttempted : Bool

/-- seek_read_frame, src/native/seek_wrapper.cpp lines 84-100.
Null handle, null out_buffer or capacity <= 0 return -1 before any I/O.
Otherwise camera->read(handle->frame) runs (driverRead is its result);
failure returns -2.  total_pixels is taken from the frame just read;
capacity < total_pixels returns -3 with nothing written; otherwise
memcpy copies total_pixels samples of the frame's row-major memory over
the start of out_buffer and total_pixels is returned.  (The model keeps
handle->frame unchanged on a failed read; the source leaves its contents
unspecified there and no caller reads them.) -/
def seek_read_frame (handle : Option SeekHandle) (out_buffer : Option (List Nat))
    (capacity : Int) (driverRead : Option RawFrame) : ReadFrameResult :=
  match handle, out_buffer with
  | none, _ => ⟨-1, out_buffer, none, false⟩
  | some h, none => ⟨-1, none, some h, false⟩
  | some h, some buf =>
    if capacity ≤ 0 then ⟨-1, some buf, some h, false⟩
    else
      match driverRead with
      | none => ⟨-2, some buf, some h, true⟩
      | some fr =>
        let h2 : SeekHandle := ⟨h.variant, fr, h.width, h.height⟩
        let total : Int := ((fr.rows * fr.cols : Nat) : Int)
        if capacity < total then ⟨-3, some buf, some h2, true⟩
        else ⟨total, some (fr.flatten ++ buf.drop (fr.rows * fr.cols)), some h2, true⟩

/-- seek_get_dimensions, src/native/seek_wrapper.cpp lines 75-82, acting
on the pointed-to struct: if handle, width or height is null, return 0
and write nothing; otherwise write the stored geometry through the two
out-pointers and return 1.  The Option Int arguments carry the contents
of *width / *height before the call (none = null pointer); the result
triple is (return value, final *width, final *height). -/
def seek_get_dimensions (handle : Option SeekHandle) (wptr hptr : Option Int) :
    Int × Option Int × Option Int :=
  match handle, wptr, hptr with
  | some h, some _, some _ => (1, some h.width, some h.height)
  | _, _, _ => (0, wptr, hptr)

/-- A tiny heap for the pointer-lifetime claims: mem maps addresses to
the struct contents currently in that memory (retained, stale, after
free — freed memory is not scrubbed), freed lists addresses whose
allocation has already been deleted. -/
structure Heap where
  mem : List (Nat × SeekHandle)
  freed : List Nat

/-- What one seek_close call did to its pointer: nothing (null pointer),
a proper close-and-delete of a live allocation, a delete of an
already-freed allocation (double free, undefined behaviour), or a delete
of memory that was never allocated (wild pointer, undefined behaviour). -/
inductive CloseEffect
  | noop
  | closedFree
  | doubleFree
  | wildFree
deriving DecidableEq

/-- seek_close, src/native/seek_wrapper.cpp lines 64-73, at the memory
level: a null pointer returns immediately; otherwise the code
unconditionally dereferences the pointer (camera->close(), camera =
nullptr) and deletes it.  On a live allocation that frees it; on an
already-freed address it is a double free. -/
def seek_close (ptr : Option Nat) (heap : Heap) : Heap × CloseEffect :=
  match ptr with
  | none => (heap, CloseEffect.noop)
  | some a =>
    if a ∈ heap.freed then
      (heap, CloseEffect.doubleFree)
    else
      match heap.mem.lookup a with
      | some _ => (⟨heap.mem, a :: heap.freed⟩, CloseEffect.closedFree)
      | none => (heap, CloseEffect.wildFree)

/-- Outcome of seek_get_dimensions at the memory level: return value,
final contents of *width and *height, and whether the call dereferenced
freed or unmapped memory. -/
structure GetDimResult where
  ret : Int
  wOut : Option Int
  hOut : Option Int
  useAfterFree : Bool

/-- seek_get_dimensions at the memory level: only null pointers are
rejected (return 0).  A non-null handle pointer is dereferenced whether
or not its allocation is still live; a dangling pointer therefore reads
freed memory (flagged useAfterFree) and still returns 1.  An address
that was never allocated reads unmapped memory; its outputs are
unspecified (modelled as unchanged) and the dereference is flagged. -/
def seek_get_dimensions_sys (ptr : Option Nat) (heap : Heap) (wptr hptr : Option Int) :
    GetDimResult :=
  match ptr, wptr, hptr with
  | some a, some w0, some h0 =>
    match heap.mem.lookup a with
    | some hd => ⟨1, some hd.width, some hd.height, decide (a ∈ heap.freed)⟩
    | none => ⟨1, some w0, some h0, true⟩
  | _, _, _ => ⟨0, wptr, hptr, false⟩

/-- Arguments of one seek_read_frame call together with the driver's
response to the read it performs, for describing call sequences on a
single handle. -/
structure ReadCallInput where
  out_buffer : Option (List Nat)
  capacity : Int
  driverRead : Option RawFrame

/-- The handle after one seek_read_frame call (the call never frees or
replaces the allocation; at most it overwrites handle->frame). -/
def readStep (h : SeekHandle) (c : ReadCallInput) : SeekHandle :=
  match (seek_read_frame (some h) c.out_buffer c.capacity c.driverRead).handle with
  | some h2 => h2
  | none => h

/-- The handle after a sequence of seek_read_frame calls. -/
def runReads (h : SeekHandle) (calls : List ReadCallInput) : SeekHandle :=
  match calls with
  | [] => h
  | c :: rest => runReads (readStep h c) rest

/- Concrete fixtures used by witnesses and counterexamples. -/

/-- A 2x2 warm-up frame of constant sample 5. -/
def fr0 : RawFrame := ⟨2, 2, fun _ _ => 5⟩

/-- A 1x1 frame of sample 7 (deliberately different geometry from fr0). -/
def fr1 : RawFrame := ⟨1, 1, fun _ _ => 7⟩

/-- A driver that cooperates fully: no throw, open succeeds, warm-up
read yields the 2x2 frame fr0. -/
def env0 : Driver := ⟨fun _ _ => false, true, some fr0⟩

/-- A driver whose camera constructor throws. -/
def envCtorFail : Driver := ⟨fun _ _ => true, true, some fr0⟩

/-- A driver whose device open fails. -/
def envOpenFail : Driver := ⟨fun _ _ => false, false, some fr0⟩

/-- A driver whose warm-up read fails. -/
def envReadFail : Driver := ⟨fun _ _ => false, true, none⟩

/-- The handle produced by seek_open 0 against env0: compact camera,
frame fr0, geometry 2x2. -/
def hdl0 : SeekHandle := ⟨CameraVariant.compact, fr0, 2, 2⟩

/-- A one-cell heap holding hdl0 at address 0, nothing freed yet. -/
def heap0 : Heap := ⟨[(0, hdl0)], []⟩

/- Helper lemmas shared by several claims. -/

/-- The row-major memory of a frame has exactly rows * cols samples. -/
theorem RawFrame.flatten_length (f : RawFrame) : f.flatten.length = f.rows * f.cols := by
  simp [RawFrame.flatten]

/-- Row-major layout: linear index r * cols + c of the flattened memory
holds the sample at row r, column c. -/
theorem RawFrame.flatten_get (f : RawFrame) (r c : Nat) (hr : r < f.rows) (hc : c < f.cols) :
    f.flatten[r * f.cols + c]? = some (f.pix r c) := by
  have hpos : 0 < f.cols := Nat.pos_of_ne_zero (by omega)
  have hlt : r * f.cols + c < f.rows * f.cols := by
    have h1 : r * f.cols + c < (r + 1) * f.cols := by
      rw [Nat.succ_mul]; omega
    exact lt_of_lt_of_le h1 (Nat.mul_le_mul_right _ hr)
  have hdiv : (r * f.cols + c) / f.cols = r := by
    rw [Nat.mul_comm r f.cols, Nat.mul_add_div hpos, Nat.div_eq_of_lt hc, Nat.add_zero]
  have hmod : (r * f.cols + c) % f.cols = c := by
    rw [Nat.mul_comm r f.cols, Nat.mul_add_mod, Nat.mod_eq_of_lt hc]
  unfold RawFrame.flatten
  rw [List.getElem?_map, List.getElem?_range hlt]
  simp [hdiv, hmod]

/-- Inversion of a successful seek_open: the driver's warm-up read
produced a frame and the returned handle is built from it. -/
theorem seek_open_some (ct : Int) (ffc : Option String) (env : Driver) (h : SeekHandle)
    (hres : (seek_open ct ffc env).result = some h) :
    ∃ fr, env.warmup = some fr ∧
      h = ⟨chosenVariant ct, fr, (fr.cols : Int), (fr.rows : Int)⟩ := by
  cases hct : env.ctorThrows (chosenVariant ct) (ffcString ffc) with
  | true => simp [seek_open, hct] at hres
  | false =>
    cases hok : env.openOk with
    | false => simp [seek_open, hct, hok] at hres
    | true =>
      cases hw : env.warmup with
      | none => simp [seek_open, hct, hok, hw] at hres
      | some fr =>
        refine ⟨fr, rfl, ?_⟩
        simp [seek_open, hct, hok, hw] at hres
        exact hres.symm

/-- One seek_read_frame call never changes the stored geometry of the
handle (it only ever overwrites the frame member). -/
theorem readStep_dims (h : SeekHandle) (c : ReadCallInput) :
    (readStep h c).width = h.width ∧ (readStep h c).height = h.height := by
  rcases c with ⟨ob, cap, dr⟩
  cases ob with
  | none => simp [readStep, seek_read_frame]
  | some buf =>
    by_cases hcap : cap ≤ 0
    · simp [readStep, seek_read_frame, hcap]
    · cases dr with
      | none => simp [readStep, seek_read_frame, hcap]
      | some fr =>
        by_cases hlt : cap < (fr.rows : Int) * (fr.cols : Int)
        · simp [readStep, seek_read_frame, hcap, hlt]
        · simp [readStep, seek_read_frame, hcap, hlt]

/-- No sequence of seek_read_frame calls changes the stored geometry. -/
theorem runReads_dims (h : SeekHandle) (calls : List ReadCallInput) :
    (runReads h calls).width = h.width ∧ (runReads h calls).height = h.height := by
  induction calls generalizing h with
  | nil => exact ⟨rfl, rfl⟩
  | cons c rest ih =>
    have hs := readStep_dims h c
    have hr := ih (readStep h c)
    rw [runReads]
    exact ⟨hr.1.trans hs.1, hr.2.trans hs.2⟩

/- Claim theorems. -/

/-- C1: for every camera_type, ffc_path and driver behaviour, if any
step of seek_open fails (constructor throw, device open failure, warm-up
read failure) then seek_open returns null, the heap-allocated handle is
deleted, and the device is closed if it had been opened; a non-null
return is a fully initialized handle that was not freed, whose device is
open, and whose width and height come from the warm-up frame. -/
theorem C1_open_unwinds_fully (ct : Int) (ffc : Option String) (env : Driver) :
    ((seek_open ct ffc env).result = none →
      (seek_open ct ffc env).handleFreed = true ∧
      ((seek_open ct ffc env).deviceOpened = true →
        (seek_open ct ffc env).deviceClosed = true)) ∧
    (∀ h, (seek_open ct ffc env).result = some h →
      (seek_open ct ffc env).handleFreed = false ∧
      (seek_open ct ffc env).deviceOpened = true ∧
      (seek_open ct ffc env).deviceClosed = false ∧
      ∃ fr, env.warmup = some fr ∧ h.frame = fr ∧
        h.width = (fr.cols : Int) ∧ h.height = (fr.rows : Int)) := by
  constructor
  · intro hres
    cases hct : env.ctorThrows (chosenVariant ct) (ffcString ffc) with
    | true => simp [seek_open, hct]
    | false =>
      cases hok : env.openOk with
      | false => simp [seek_open, hct, hok]
      | true =>
        cases hw : env.warmup with
        | none => simp [seek_open, hct, hok, hw]
        | some fr => simp [seek_open, hct, hok, hw] at hres
  · intro h hres
    obtain ⟨fr, hw, hh⟩ := seek_open_some ct ffc env h hres
    cases hct : env.ctorThrows (chosenVariant ct) (ffcString ffc) with
    | true => simp [seek_open, hct] at hres
    | false =>
      cases hok : env.openOk with
      | false => simp [seek_open, hct, hok] at hres
      | true =>
        refine ⟨by simp [seek_open, hct, hok, hw], by simp [seek_open, hct, hok, hw],
          by simp [seek_open, hct, hok, hw], fr, hw, ?_, ?_, ?_⟩ <;> rw [hh]

/-- C1 witness: at concrete driver behaviours, a constructor throw frees
the handle, a failed warm-up read closes the opened device and frees the
handle, and a cooperative driver yields an unfreed handle with the 2x2
warm-up geometry. -/
theorem C1_witness :
    (seek_open 0 none envCtorFail).handleFreed = true ∧
    ((seek_open 1 none envReadFail).handleFreed = true ∧
      (seek_open 1 none envReadFail).deviceClosed = true) ∧
    ((seek_open 0 none env0).handleFreed = false ∧ hdl0.width = 2 ∧ hdl0.height = 2) := by
  have h1 := (C1_open_unwinds_fully 0 none envCtorFail).1 rfl
  have h2 := (C1_open_unwinds_fully 1 none envReadFail).1 rfl
  have h3 := (C1_open_unwinds_fully 0 none env0).2 hdl0 rfl
  exact ⟨h1.1, ⟨h2.1, h2.2 rfl⟩, h3.1, rfl, rfl⟩

/-- C9: seek_open treats every camera_type other than 1 as the compact
variant (the switch has no rejection arm), and for every camera_type a
cooperative driver makes seek_open succeed with a handle of the chosen
variant — no camera_type value is rejected as invalid. -/
theorem C9_camera_type_dispatch (ct : Int) (ffc : Option String) (env : Driver) :
    (seek_open ct ffc env).variantChosen =
      (if ct = 1 then CameraVariant.pro else CameraVariant.compact) ∧
    (env.ctorThrows (chosenVariant ct) (ffcString ffc) = false →
      env.openOk = true →
      ∀ fr, env.warmup = some fr →
        ∃ h, (seek_open ct ffc env).result = some h ∧
          h.variant = (if ct = 1 then CameraVariant.pro else CameraVariant.compact)) := by
  have hv : (seek_open ct ffc env).variantChosen = chosenVariant ct := by
    cases hct : env.ctorThrows (chosenVariant ct) (ffcString ffc) with
    | true => simp [seek_open, hct]
    | false =>
      cases hok : env.openOk with
      | false => simp [seek_open, hct, hok]
      | true =>
        cases hw : env.warmup with
        | none => simp [seek_open, hct, hok, hw]
        | some fr => simp [seek_open, hct, hok, hw]
  constructor
  · rw [hv]; rfl
  · intro hct hok fr hw
    exact ⟨⟨chosenVariant ct, fr, (fr.cols : Int), (fr.rows : Int)⟩,
      by simp [seek_open, hct, hok, hw], rfl⟩

/-- C9 witness: the out-of-range camera_type values 2 and -1 both select
the compact variant and still open successfully against a cooperative
driver, and camera_type 1 selects the pro variant. -/
theorem C9_witness :
    (seek_open 2 none env0).variantChosen = CameraVariant.compact ∧
    (seek_open (-1) none env0).variantChosen = CameraVariant.compact ∧
    (seek_open 1 none env0).variantChosen = CameraVariant.pro ∧
    (seek_open 2 none env0).result.isSome = true ∧
    (seek_open (-1) none env0).result.isSome = true := by
  have h2 := C9_camera_type_dispatch 2 none env0
  have hm := C9_camera_type_dispatch (-1) none env0
  have h1 := C9_camera_type_dispatch 1 none env0
  obtain ⟨ha, hb, _⟩ := h2.2 rfl rfl fr0 rfl
  obtain ⟨hc, hd, _⟩ := hm.2 rfl rfl fr0 rfl
  refine ⟨by rw [h2.1]; rfl, by rw [hm.1]; rfl, by rw [h1.1]; rfl, ?_, ?_⟩
  · rw [hb]; rfl
  · rw [hd]; rfl

/-- C10: seek_get_dimensions returns 0 and leaves both out-parameters
unchanged whenever the handle or either output pointer is null, and for
a non-null handle with non-null output pointers it writes the stored
geometry through the pointers and returns 1. -/
theorem C10_get_dimensions_contract (handle : Option SeekHandle) (wptr hptr : Option Int) :
    ((handle = none ∨ wptr = none ∨ hptr = none) →
      seek_get_dimensions handle wptr hptr = (0, wptr, hptr)) ∧
    (∀ h w0 h0, handle = some h → wptr = some w0 → hptr = some h0 →
      seek_get_dimensions handle wptr hptr = (1, some h.width, some h.height)) := by
  constructor
  · intro hnull
    cases handle with
    | none => rfl
    | some h =>
      cases wptr with
      | none => rfl
      | some w0 =>
        cases hptr with
        | none => rfl
        | some h0 => rcases hnull with h | h | h <;> simp at h
  · intro h w0 h0 hh hw hp
    subst hh; subst hw; subst hp
    rfl

/-- C10 witness: on a null width pointer the call returns 0 and changes
nothing; on the concrete open handle with valid pointers it returns 1
and writes the stored 2x2 geometry. -/
theorem C10_witness :
    seek_get_dimensions (some hdl0) none (some 3) = (0, none, some 3) ∧
    seek_get_dimensions (some hdl0) (some 7) (some 8) = (1, some 2, some 2) := by
  have h1 := (C10_get_dimensions_contract (some hdl0) none (some 3)).1 (Or.inr (Or.inl rfl))
  have h2 := (C10_get_dimensions_contract (some hdl0) (some 7) (some 8)).2 hdl0 7 8 rfl rfl rfl
  exact ⟨h1, h2⟩

/-- Reduction of seek_read_frame for valid arguments and a successful
driver read: the capacity check and the copy both use the pixel count of
the frame just read. -/
theorem seek_read_frame_some (h : SeekHandle) (buf : List Nat) (cap : Int) (fr : RawFrame)
    (hcap : ¬cap ≤ 0) :
    seek_read_frame (some h) (some buf) cap (some fr) =
      if cap < ((fr.rows * fr.cols : Nat) : Int) then
        ⟨-3, some buf, some ⟨h.variant, fr, h.width, h.height⟩, true⟩
      else
        ⟨((fr.rows * fr.cols : Nat) : Int),
         some (fr.flatten ++ buf.drop (fr.rows * fr.cols)),
         some ⟨h.variant, fr, h.width, h.height⟩, true⟩ := by
  simp [seek_read_frame, hcap]

/-- C4: seek_read_frame returns -1 exactly when the handle or buffer is
null or the capacity is not positive; -2 exactly when the arguments are
valid but the device read fails; -3 exactly when the arguments are valid
and the read succeeds but capacity is below the pixel count of the frame
just read; it is non-negative exactly on full success, in which case it
equals that pixel count; and the transport read is attempted exactly
when the arguments are valid. -/
theorem C4_error_code_taxonomy (handle : Option SeekHandle) (buf : Option (List Nat))
    (cap : Int) (dr : Option RawFrame) :
    ((seek_read_frame handle buf cap dr).ret = -1 ↔
      handle = none ∨ buf = none ∨ cap ≤ 0) ∧
    ((seek_read_frame handle buf cap dr).ret = -2 ↔
      handle ≠ none ∧ buf ≠ none ∧ 0 < cap ∧ dr = none) ∧
    ((seek_read_frame handle buf cap dr).ret = -3 ↔
      handle ≠ none ∧ buf ≠ none ∧ 0 < cap ∧
        ∃ fr, dr = some fr ∧ cap < ((fr.rows * fr.cols : Nat) : Int)) ∧
    (0 ≤ (seek_read_frame handle buf cap dr).ret ↔
      handle ≠ none ∧ buf ≠ none ∧ 0 < cap ∧
        ∃ fr, dr = some fr ∧ ((fr.rows * fr.cols : Nat) : Int) ≤ cap) ∧
    (∀ fr, dr = some fr → handle ≠ none → buf ≠ none → 0 < cap →
      ((fr.rows * fr.cols : Nat) : Int) ≤ cap →
      (seek_read_frame handle buf cap dr).ret = ((fr.rows * fr.cols : Nat) : Int)) ∧
    ((seek_read_frame handle buf cap dr).ioAttempted = true ↔
      handle ≠ none ∧ buf ≠ none ∧ 0 < cap) := by
  cases handle with
  | none => simp [seek_read_frame]
  | some h =>
    cases buf with
    | none => simp [seek_read_frame]
    | some b =>
      by_cases hcap : cap ≤ 0
      · have hcap2 : ¬0 < cap := by omega
        simp [seek_read_frame, hcap, hcap2]
      · have hcap2 : 0 < cap := by omega
        cases dr with
        | none => simp [seek_read_frame, hcap, hcap2]
        | some fr =>
          rw [seek_read_frame_some h b cap fr hcap]
          by_cases hlt : cap < ((fr.rows * fr.cols : Nat) : Int)
          · rw [if_pos hlt]
            refine ⟨?_, ?_, ?_, ?_, ?_, ?_⟩
            · simp [hcap, -Nat.cast_mul]
            · simp [-Nat.cast_mul]
            · simp [hcap2, hlt, -Nat.cast_mul]
              push_cast at hlt
              exact hlt
            · simp [hcap2, -Nat.cast_mul]
              omega
            · intro fr2 hfr2 h1 h2 h3 hle
              exfalso
              injection hfr2 with he
              subst he
              omega
            · simp [hcap2, -Nat.cast_mul]
          · rw [if_neg hlt]
            refine ⟨?_, ?_, ?_, ?_, ?_, ?_⟩
            · simp [hcap, -Nat.cast_mul]
              omega
            · simp [-Nat.cast_mul]
              omega
            · simp [hcap2, hlt, -Nat.cast_mul]
              omega
            · simp [hcap2, -Nat.cast_mul]
              omega
            · intro fr2 hfr2 h1 h2 h3 h4
              injection hfr2 with he
              subst he
              rfl
            · simp [hcap2, -Nat.cast_mul]

/-- C4 witness: each error class and the success value at concrete
inputs: null handle gives -1, failed read gives -2, capacity 1 below the
2x2 frame gives -3, and capacity 4 returns the pixel count 4. -/
theorem C4_witness :
    (seek_read_frame none (some [0, 0, 0, 0]) 4 (some fr0)).ret = -1 ∧
    (seek_read_frame (some hdl0) (some [0, 0, 0, 0]) 4 none).ret = -2 ∧
    (seek_read_frame (some hdl0) (some [0]) 1 (some fr0)).ret = -3 ∧
    (seek_read_frame (some hdl0) (some [0, 0, 0, 0]) 4 (some fr0)).ret = 4 := by
  refine ⟨?_, ?_, ?_, ?_⟩
  · exact (C4_error_code_taxonomy none (some [0, 0, 0, 0]) 4 (some fr0)).1.mpr (Or.inl rfl)
  · exact (C4_error_code_taxonomy (some hdl0) (some [0, 0, 0, 0]) 4 none).2.1.mpr
      ⟨by simp, by simp, by decide, rfl⟩
  · exact (C4_error_code_taxonomy (some hdl0) (some [0]) 1 (some fr0)).2.2.1.mpr
      ⟨by simp, by simp, by decide, fr0, rfl, by decide⟩
  · exact (C4_error_code_taxonomy (some hdl0) (some [0, 0, 0, 0]) 4 (some fr0)).2.2.2.2.1
      fr0 rfl (by simp) (by simp) (by decide) (by decide)

/-- C2 counterexample: on the handle opened with 2x2 warm-up geometry
(width * height = 4), a call with capacity 4 whose driver read yields a
1x1 frame succeeds but writes and returns 1, not width * height = 4: the
copy size comes from the frame just read, not from the established
geometry. -/
theorem C2_counterexample :
    (seek_open 0 none env0).result = some hdl0 ∧
    hdl0.width * hdl0.height = 4 ∧
    0 ≤ (seek_read_frame (some hdl0) (some [9, 9, 9, 9]) 4 (some fr1)).ret ∧
    (seek_read_frame (some hdl0) (some [9, 9, 9, 9]) 4 (some fr1)).ret = 1 ∧
    (1 : Int) ≠ 4 ∧
    (seek_read_frame (some hdl0) (some [9, 9, 9, 9]) 4 (some fr1)).buffer =
      some [7, 9, 9, 9] := by
  exact ⟨rfl, by decide, by decide, rfl, by decide, rfl⟩

/-- C2 (amended): when the driver read returns a frame of the
established geometry, a call with 0 < capacity and capacity >=
width * height succeeds, returns width * height, and overwrites exactly
the first width * height samples of out_buffer with the frame's
row-major memory, leaving the rest of the buffer unchanged; sample
r * cols + c of the written region is the pixel at row r, column c. -/
theorem C2_success_copies_full_frame (h : SeekHandle) (buf : List Nat) (cap : Int)
    (fr : RawFrame) (hw : h.width = (fr.cols : Int)) (hh : h.height = (fr.rows : Int))
    (hcap0 : 0 < cap) (hcap : h.width * h.height ≤ cap) :
    (seek_read_frame (some h) (some buf) cap (some fr)).ret = h.width * h.height ∧
    (seek_read_frame (some h) (some buf) cap (some fr)).buffer =
      some (fr.flatten ++ buf.drop (fr.rows * fr.cols)) ∧
    fr.flatten.length = fr.rows * fr.cols ∧
    (∀ r c, r < fr.rows → c < fr.cols →
      (fr.flatten ++ buf.drop (fr.rows * fr.cols))[r * fr.cols + c]? =
        some (fr.pix r c)) ∧
    (fr.flatten ++ buf.drop (fr.rows * fr.cols)).drop (fr.rows * fr.cols) =
      buf.drop (fr.rows * fr.cols) := by
  have hcapn : ¬cap ≤ 0 := by omega
  have htot : h.width * h.height = ((fr.rows * fr.cols : Nat) : Int) := by
    rw [hw, hh]
    push_cast
    ring
  have hnlt : ¬cap < ((fr.rows * fr.cols : Nat) : Int) := by
    rw [htot] at hcap
    omega
  rw [seek_read_frame_some h buf cap fr hcapn, if_neg hnlt]
  refine ⟨htot.symm, rfl, RawFrame.flatten_length fr, ?_, ?_⟩
  · intro r c hr hc
    have hidx : r * fr.cols + c < fr.flatten.length := by
      rw [RawFrame.flatten_length]
      have h1 : r * fr.cols + c < (r + 1) * fr.cols := by
        rw [Nat.succ_mul]; omega
      exact lt_of_lt_of_le h1 (Nat.mul_le_mul_right _ hr)
    rw [List.getElem?_append_left hidx]
    exact RawFrame.flatten_get fr r c hr hc
  · rw [← RawFrame.flatten_length fr, List.drop_left]

/-- C2 witness: on the 2x2 handle with a 2x2 driver frame, capacity 4
returns 4 and the buffer holds the four frame samples followed by the
untouched tail; index 1 * 2 + 1 of the written region is the pixel at
row 1, column 1. -/
theorem C2_witness :
    (seek_read_frame (some hdl0) (some [1, 2, 3, 4, 8]) 4 (some fr0)).ret = 4 ∧
    (seek_read_frame (some hdl0) (some [1, 2, 3, 4, 8]) 4 (some fr0)).buffer =
      some [5, 5, 5, 5, 8] ∧
    (fr0.flatten ++ [1, 2, 3, 4, 8].drop (fr0.rows * fr0.cols))[1 * fr0.cols + 1]? =
      some 5 := by
  have hc := C2_success_copies_full_frame hdl0 [1, 2, 3, 4, 8] 4 fr0 rfl rfl
    (by decide) (by decide)
  refine ⟨hc.1.trans (by decide), hc.2.1.trans (by rfl), ?_⟩
  exact hc.2.2.2.1 1 1 (by decide) (by decide)

/-- C3 counterexample: with capacity 2 strictly between 0 and
width * height = 4, a call whose device read fails returns the
read-failure code -2, not the buffer-too-small code -3: the read is
attempted before the capacity check. -/
theorem C3_counterexample :
    (0 : Int) < 2 ∧ (2 : Int) < hdl0.width * hdl0.height ∧
    (seek_read_frame (some hdl0) (some [0, 0, 0, 0]) 2 none).ret = -2 ∧
    ((-2 : Int) ≠ -3) ∧
    (seek_read_frame (some hdl0) (some [0, 0, 0, 0]) 2 none).buffer =
      some [0, 0, 0, 0] := by
  exact ⟨by decide, by decide, rfl, by decide, rfl⟩

/-- C3 (amended): a call with 0 < capacity < width * height is decided
by that call's driver read, not by the stored geometry, because the
device read runs before the capacity check and capacity is compared
against the pixel count of the frame just read: a failed read returns
-2 with the buffer untouched; a successful read of a frame whose pixel
count exceeds capacity — in particular any frame of the established
geometry — returns the buffer-too-small code -3 with the buffer
untouched; but a successful read of a smaller frame whose pixel count
fits within capacity succeeds, writing exactly that frame's samples
over the start of the buffer and returning that count. -/
theorem C3_small_capacity_behavior (h : SeekHandle) (buf : List Nat) (cap : Int)
    (hcap0 : 0 < cap) (hlt : cap < h.width * h.height) :
    (seek_read_frame (some h) (some buf) cap none = ⟨-2, some buf, some h, true⟩) ∧
    (∀ fr, cap < ((fr.rows * fr.cols : Nat) : Int) →
      (seek_read_frame (some h) (some buf) cap (some fr)).ret = -3 ∧
      (seek_read_frame (some h) (some buf) cap (some fr)).buffer = some buf) ∧
    (∀ fr, h.width = (fr.cols : Int) → h.height = (fr.rows : Int) →
      (seek_read_frame (some h) (some buf) cap (some fr)).ret = -3 ∧
      (seek_read_frame (some h) (some buf) cap (some fr)).buffer = some buf) ∧
    (∀ fr, ((fr.rows * fr.cols : Nat) : Int) ≤ cap →
      (seek_read_frame (some h) (some buf) cap (some fr)).ret =
        ((fr.rows * fr.cols : Nat) : Int) ∧
      (seek_read_frame (some h) (some buf) cap (some fr)).buffer =
        some (fr.flatten ++ buf.drop (fr.rows * fr.cols))) := by
  have hcapn : ¬cap ≤ 0 := by omega
  have hbig : ∀ fr, cap < ((fr.rows * fr.cols : Nat) : Int) →
      (seek_read_frame (some h) (some buf) cap (some fr)).ret = -3 ∧
      (seek_read_frame (some h) (some buf) cap (some fr)).buffer = some buf := by
    intro fr hfr
    rw [seek_read_frame_some h buf cap fr hcapn, if_pos hfr]
    exact ⟨rfl, rfl⟩
  refine ⟨by simp [seek_read_frame, hcapn], hbig, ?_, ?_⟩
  · intro fr hw hh
    have htot : h.width * h.height = ((fr.rows * fr.cols : Nat) : Int) := by
      rw [hw, hh]
      push_cast
      ring
    exact hbig fr (htot ▸ hlt)
  · intro fr hfit
    have hnlt : ¬cap < ((fr.rows * fr.cols : Nat) : Int) := by omega
    rw [seek_read_frame_some h buf cap fr hcapn, if_neg hnlt]
    exact ⟨rfl, rfl⟩

/-- C3 witness: on the 2x2 handle (width * height = 4) with capacity 2,
a failed read returns -2 leaving the buffer untouched, a successful 2x2
read returns -3 leaving the buffer untouched, and a successful 1x1 read
fits, writes its single sample and returns 1. -/
theorem C3_witness :
    (seek_read_frame (some hdl0) (some [6, 6]) 2 none).ret = -2 ∧
    (seek_read_frame (some hdl0) (some [6, 6]) 2 none).buffer = some [6, 6] ∧
    (seek_read_frame (some hdl0) (some [6, 6]) 2 (some fr0)).ret = -3 ∧
    (seek_read_frame (some hdl0) (some [6, 6]) 2 (some fr0)).buffer = some [6, 6] ∧
    (seek_read_frame (some hdl0) (some [6, 6]) 2 (some fr1)).ret = 1 ∧
    (seek_read_frame (some hdl0) (some [6, 6]) 2 (some fr1)).buffer = some [7, 6] := by
  have hc := C3_small_capacity_behavior hdl0 [6, 6] 2 (by decide) (by decide)
  have h1 := hc.1
  have h2 := hc.2.2.1 fr0 rfl rfl
  have h3 := hc.2.2.2 fr1 (by decide)
  exact ⟨by rw [h1], by rw [h1], h2.1, h2.2, h3.1, h3.2⟩

/-- C5: for every handle returned by a successful seek_open, the
geometry reported by seek_get_dimensions is exactly the warm-up frame's
(cols, rows), and it is unchanged after any sequence of seek_read_frame
calls, whatever those calls' arguments and driver responses are —
seek_read_frame never touches the stored width and height. -/
theorem C5_geometry_stable (ct : Int) (ffc : Option String) (env : Driver)
    (h : SeekHandle) (fr : RawFrame)
    (hres : (seek_open ct ffc env).result = some h) (hw : env.warmup = some fr) :
    (∀ w0 h0 : Int, seek_get_dimensions (some h) (some w0) (some h0) =
      (1, some (fr.cols : Int), some (fr.rows : Int))) ∧
    (∀ calls : List ReadCallInput, ∀ w0 h0 : Int,
      seek_get_dimensions (some (runReads h calls)) (some w0) (some h0) =
        (1, some (fr.cols : Int), some (fr.rows : Int))) := by
  obtain ⟨fr2, hw2, hh⟩ := seek_open_some ct ffc env h hres
  rw [hw] at hw2
  injection hw2 with he
  subst he
  subst hh
  constructor
  · intro w0 h0
    rfl
  · intro calls w0 h0
    have hd := runReads_dims ⟨chosenVariant ct, fr, (fr.cols : Int), (fr.rows : Int)⟩ calls
    show (1, some (runReads _ calls).width, some (runReads _ calls).height) = _
    rw [hd.1, hd.2]

/-- C5 witness: opening against the cooperative driver gives the 2x2
geometry, and it is still reported as 2x2 after a read that returned a
1x1 frame and a read that failed. -/
theorem C5_witness :
    seek_get_dimensions (some hdl0) (some 9) (some 9) = (1, some 2, some 2) ∧
    seek_get_dimensions
      (some (runReads hdl0 [⟨some [0, 0, 0, 0], 4, some fr1⟩, ⟨some [0], 2, none⟩]))
      (some 9) (some 9) = (1, some 2, some 2) := by
  have hc := C5_geometry_stable 0 none env0 hdl0 fr0 rfl rfl
  exact ⟨hc.1 9 9, hc.2 [⟨some [0, 0, 0, 0], 4, some fr1⟩, ⟨some [0], 2, none⟩] 9 9⟩

/-- C6 counterexample: a read fails (the only transport-failure signal
the wrapper has, return code -2), yet the very next seek_read_frame on
the same handle attempts transport I/O again and even succeeds — it
does not fail fast with any session-closed error. -/
theorem C6_counterexample :
    (seek_read_frame (some hdl0) (some [0, 0, 0, 0]) 4 none).ret = -2 ∧
    (seek_read_frame ((seek_read_frame (some hdl0) (some [0, 0, 0, 0]) 4 none).handle)
      (some [0, 0, 0, 0]) 4 (some fr0)).ioAttempted = true ∧
    0 ≤ (seek_read_frame ((seek_read_frame (some hdl0) (some [0, 0, 0, 0]) 4 none).handle)
      (some [0, 0, 0, 0]) 4 (some fr0)).ret := by
  exact ⟨rfl, rfl, by decide⟩

/-- C6 (amended): the wrapper keeps no per-handle failure state and has
no session-closed error code: whatever happened on earlier calls, every
seek_read_frame with a non-null handle, non-null buffer and positive
capacity reaches the camera->read transport transaction, and its outcome
depends only on that call's driver response. -/
theorem C6_no_failure_latch (h : SeekHandle) (buf : List Nat) (cap : Int)
    (dr : Option RawFrame) (hcap : 0 < cap) :
    (seek_read_frame (some h) (some buf) cap dr).ioAttempted = true := by
  have hcapn : ¬cap ≤ 0 := by omega
  cases dr with
  | none => simp [seek_read_frame, hcapn]
  | some fr =>
    rw [seek_read_frame_some h buf cap fr hcapn]
    by_cases hlt : cap < ((fr.rows * fr.cols : Nat) : Int)
    · rw [if_pos hlt]
    · rw [if_neg hlt]

/-- C6 amended-claim witness: the handle that just saw a failed read
still attempts transport I/O on the next call. -/
theorem C6_witness :
    (seek_read_frame (some hdl0) (some [0, 0, 0, 0]) 4 (some fr0)).ioAttempted = true ∧
    (seek_read_frame (some hdl0) (some [0]) 1 none).ioAttempted = true := by
  exact ⟨C6_no_failure_latch hdl0 [0, 0, 0, 0] 4 (some fr0) (by decide),
    C6_no_failure_latch hdl0 [0] 1 none (by decide)⟩

/-- C7 counterexample: closing the same live handle twice is not safe:
the first seek_close frees it, and the second dereferences and deletes
the already-freed allocation — a double free. -/
theorem C7_counterexample :
    (seek_close (some 0) heap0).2 = CloseEffect.closedFree ∧
    (seek_close (some 0) (seek_close (some 0) heap0).1).2 = CloseEffect.doubleFree := by
  exact ⟨rfl, rfl⟩

/-- C7 (amended): seek_close on a null handle is a no-op that never
errors, and on a live handle it closes and frees it; but seek_close is
not idempotent: on an already-freed handle it dereferences and deletes
freed memory (double free) rather than doing nothing. -/
theorem C7_close_null_safe_not_idempotent (heap : Heap) :
    seek_close none heap = (heap, CloseEffect.noop) ∧
    (∀ a hd, heap.mem.lookup a = some hd → a ∉ heap.freed →
      seek_close (some a) heap = (⟨heap.mem, a :: heap.freed⟩, CloseEffect.closedFree)) ∧
    (∀ a, a ∈ heap.freed → (seek_close (some a) heap).2 = CloseEffect.doubleFree) := by
  refine ⟨rfl, ?_, ?_⟩
  · intro a hd hmem hnf
    simp [seek_close, hnf, hmem]
  · intro a hf
    simp [seek_close, hf]

/-- C7 witness: null close is a no-op on the concrete heap, the first
close of the live handle at address 0 frees it, and a close of an
already-freed address is a double free. -/
theorem C7_witness :
    seek_close none heap0 = (heap0, CloseEffect.noop) ∧
    seek_close (some 0) heap0 = (⟨heap0.mem, 0 :: heap0.freed⟩, CloseEffect.closedFree) ∧
    (seek_close (some 0) ⟨heap0.mem, [0]⟩).2 = CloseEffect.doubleFree := by
  have hc := C7_close_null_safe_not_idempotent heap0
  have hc2 := C7_close_null_safe_not_idempotent ⟨heap0.mem, [0]⟩
  exact ⟨hc.1, hc.2.1 0 hdl0 rfl (by decide), hc2.2.2 0 (by decide)⟩

/-- C8 counterexample: after seek_close frees the handle at address 0,
seek_get_dimensions on that handle does not fail: it returns 1, not the
failure flag 0, and dereferences freed memory to do so. -/
theorem C8_counterexample :
    (seek_close (some 0) heap0).2 = CloseEffect.closedFree ∧
    (seek_get_dimensions_sys (some 0) (seek_close (some 0) heap0).1
      (some 5) (some 6)).ret = 1 ∧
    (seek_get_dimensions_sys (some 0) (seek_close (some 0) heap0).1
      (some 5) (some 6)).ret ≠ 0 ∧
    (seek_get_dimensions_sys (some 0) (seek_close (some 0) heap0).1
      (some 5) (some 6)).useAfterFree = true := by
  exact ⟨rfl, rfl, by decide, rfl⟩

/-- C8 (amended): seek_get_dimensions rejects only null pointers, so on
a handle whose allocation has been freed by seek_close the call does not
fail with the invalid-handle indication: it dereferences the freed
memory (use-after-free) and returns 1. -/
theorem C8_dimensions_after_close_uaf (heap : Heap) (a : Nat) (hd : SeekHandle)
    (w0 h0 : Int) (hmem : heap.mem.lookup a = some hd) (hf : a ∈ heap.freed) :
    (seek_get_dimensions_sys (some a) heap (some w0) (some h0)).ret = 1 ∧
    (seek_get_dimensions_sys (some a) heap (some w0) (some h0)).useAfterFree = true := by
  simp [seek_get_dimensions_sys, hmem, hf]

/-- C8 amended-claim witness: on the heap where address 0 has been
freed, the call returns 1 with the use-after-free flag set. -/
theorem C8_witness :
    (seek_get_dimensions_sys (some 0) ⟨heap0.mem, [0]⟩ (some 5) (some 6)).ret = 1 ∧
    (seek_get_dimensions_sys (some 0) ⟨heap0.mem, [0]⟩ (some 5) (some 6)).useAfterFree
      = true := by
  exact C8_dimensions_after_close_uaf ⟨heap0.mem, [0]⟩ 0 hdl0 5 6 rfl (by decide)
